import Mathlib

/-!
Verification of the diagnostic-control macro header ws_diag_control.h.

The header is pure compile-time configuration: given the identity and
version macros the build environment defines, each macro expands to a
(possibly empty) sequence of pragma directives.  We embed that mapping
shallowly: a compiler configuration is a record of the relevant
preprocessor facts, a directive is the pragma the compiler receives, and
each macro of the header becomes a function from the configuration to the
list of directives its expansion emits.
-/

/-- A compile-time compiler configuration: which identity macros the build
environment defines, and the compiler version numbers those macros report.
The version fields are meaningful only when the corresponding identity
flag is set, matching the preprocessor. -/
structure Config where
  clang : Bool
  gnuc : Bool
  msc : Bool
  apple : Bool
  yybyacc : Bool
  clangMajor : Nat
  clangMinor : Nat
  gnucMajor : Nat
  gnucMinor : Nat
  deriving DecidableEq, Repr

/-- A single directive emitted into the translation unit.  The header uses
two emission mechanisms: a standard pragma operator carrying the text
given to it (namespaced as a clang diagnostic or a GCC diagnostic pragma,
per the two instantiations of DIAG_PRAGMA), and the Microsoft pragma
keyword. -/
inductive Directive where
  | clangDiag (x : String)
  | gccDiag (x : String)
  | mspragma (x : String)
  deriving DecidableEq, Repr

/-- XSTRINGIFY(x) produces the quoted string literal of its argument. -/
def XSTRINGIFY (x : String) : String := "\"" ++ x ++ "\""

/-- DIAG_JOINSTR(x,y) pastes the two tokens and stringifies the result. -/
def DIAG_JOINSTR (x y : String) : String := XSTRINGIFY (x ++ y)

/-- DIAG_PRAGMA as defined in the Clang branch of the header:
DIAG_DO_PRAGMA(clang diagnostic x). -/
def DIAG_PRAGMA_clang (x : String) : List Directive := [Directive.clangDiag x]

/-- DIAG_PRAGMA as defined in the GCC branch of the header:
DIAG_DO_PRAGMA(GCC diagnostic x). -/
def DIAG_PRAGMA_gcc (x : String) : List Directive := [Directive.gccDiag x]

/-- Modelled from the spec: the version predicate family of the included
ws_compiler_tests.h header, which is not part of this fragment.  The spec
describes it as compile-time predicates answering whether the active
compiler is at least major.minor of a family, i.e. a lexicographic
comparison of the reported version against the wanted one. -/
def versionAtLeast (major minor wantedMajor wantedMinor : Nat) : Bool :=
  if wantedMajor < major then true
  else if major == wantedMajor then decide (wantedMinor ≤ minor)
  else false

/-- Modelled from the spec: WS_IS_AT_LEAST_CLANG_VERSION(a,b) holds when
the compiler identifies as Clang and its reported version is at least
a.b. -/
def WS_IS_AT_LEAST_CLANG_VERSION (cfg : Config) (wmaj wmin : Nat) : Bool :=
  cfg.clang && versionAtLeast cfg.clangMajor cfg.clangMinor wmaj wmin

/-- Modelled from the spec: WS_IS_AT_LEAST_GNUC_VERSION(a,b) holds when
the compiler identifies as GCC-compatible and its reported version is at
least a.b. -/
def WS_IS_AT_LEAST_GNUC_VERSION (cfg : Config) (wmaj wmin : Nat) : Bool :=
  cfg.gnuc && versionAtLeast cfg.gnucMajor cfg.gnucMinor wmaj wmin

/-- DIAG_OFF(x), header lines 37 to 82.  The Clang branch is checked
first; inside it the macro is only defined for Clang at least 2.8, and
the GCC branch only for GCC-compatible at least 4.8.  Every configuration
on which neither branch defined the macro falls through to the final
empty definition guarded by ifndef DIAG_OFF. -/
def DIAG_OFF (cfg : Config) (x : String) : List Directive :=
  if cfg.clang then
    if WS_IS_AT_LEAST_CLANG_VERSION cfg 2 8 then
      DIAG_PRAGMA_clang "push" ++ DIAG_PRAGMA_clang ("ignored " ++ DIAG_JOINSTR "-W" x)
    else []
  else if cfg.gnuc then
    if WS_IS_AT_LEAST_GNUC_VERSION cfg 4 8 then
      DIAG_PRAGMA_gcc "push" ++ DIAG_PRAGMA_gcc ("ignored " ++ DIAG_JOINSTR "-W" x)
    else []
  else []

/-- DIAG_ON(x), header lines 37 to 82.  The argument is not used by any
definition of the macro; the expansion is a single pop where supported and
empty otherwise. -/
def DIAG_ON (cfg : Config) (x : String) : List Directive :=
  if cfg.clang then
    if WS_IS_AT_LEAST_CLANG_VERSION cfg 2 8 then DIAG_PRAGMA_clang "pop" else []
  else if cfg.gnuc then
    if WS_IS_AT_LEAST_GNUC_VERSION cfg 4 8 then DIAG_PRAGMA_gcc "pop" else []
  else []

/-- The configurations on which the header obtained a working DIAG_OFF and
DIAG_ON, i.e. on which the ifndef fallback was not taken. -/
def diagSupported (cfg : Config) : Bool :=
  WS_IS_AT_LEAST_CLANG_VERSION cfg 2 8 ||
    (!cfg.clang && WS_IS_AT_LEAST_GNUC_VERSION cfg 4 8)

/-- DIAG_OFF_CLANG(x), header lines 85 to 91. -/
def DIAG_OFF_CLANG (cfg : Config) (x : String) : List Directive :=
  if cfg.clang then DIAG_OFF cfg x else []

/-- DIAG_ON_CLANG(x), header lines 85 to 91. -/
def DIAG_ON_CLANG (cfg : Config) (x : String) : List Directive :=
  if cfg.clang then DIAG_ON cfg x else []

/-- DIAG_OFF_FLEX, header lines 102 to 170.  On a Microsoft compiler it is
a fixed sequence of Microsoft pragmas; otherwise it is built from
DIAG_OFF, with the shorten-64-to-32 and unreachable-code members present
only on the Clang or Apple branch. -/
def DIAG_OFF_FLEX (cfg : Config) : List Directive :=
  if cfg.msc then
    [Directive.mspragma "warning(push)",
     Directive.mspragma "warning(disable:4018)",
     Directive.mspragma "warning(disable:4244)",
     Directive.mspragma "warning(disable:4267)",
     Directive.mspragma "warning(disable:6011)",
     Directive.mspragma "warning(disable:6308)",
     Directive.mspragma "warning(disable:6386)",
     Directive.mspragma "warning(disable:6387)",
     Directive.mspragma "warning(disable:28182)"]
  else if cfg.clang || cfg.apple then
    DIAG_OFF cfg "sign-compare" ++
      DIAG_OFF cfg "shorten-64-to-32" ++
        DIAG_OFF cfg "unreachable-code"
  else
    DIAG_OFF cfg "sign-compare"

/-- DIAG_ON_FLEX, header lines 102 to 170.  On the Clang or Apple branch
the header expands, in this order, DIAG_OFF(unreachable-code), then
DIAG_ON(shorten-64-to-32), then DIAG_ON(sign-compare); the first member is
DIAG_OFF, exactly as the source is written. -/
def DIAG_ON_FLEX (cfg : Config) : List Directive :=
  if cfg.msc then
    [Directive.mspragma "warning(pop)"]
  else if cfg.clang || cfg.apple then
    DIAG_OFF cfg "unreachable-code" ++
      DIAG_ON cfg "shorten-64-to-32" ++
        DIAG_ON cfg "sign-compare"
  else
    DIAG_ON cfg "sign-compare"

/-- DIAG_OFF_BYACC, header lines 130 to 192.  Empty on a Microsoft
compiler; otherwise DIAG_OFF(shadow) when YYBYACC is defined and empty
when it is not. -/
def DIAG_OFF_BYACC (cfg : Config) : List Directive :=
  if cfg.msc then []
  else if cfg.yybyacc then DIAG_OFF cfg "shadow"
  else []

/-- DIAG_ON_BYACC, header lines 130 to 192.  The argument the source
passes to DIAG_ON is spelled SHADOW. -/
def DIAG_ON_BYACC (cfg : Config) : List Directive :=
  if cfg.msc then []
  else if cfg.yybyacc then DIAG_ON cfg "SHADOW"
  else []

/-- USES_APPLE_DEPRECATED_API, header lines 204 to 210. -/
def USES_APPLE_DEPRECATED_API (cfg : Config) : List Directive :=
  if cfg.apple then DIAG_OFF cfg "deprecated-declarations" else []

/-- USES_APPLE_RST, header lines 204 to 210. -/
def USES_APPLE_RST (cfg : Config) : List Directive :=
  if cfg.apple then DIAG_ON cfg "deprecated-declarations" else []

/-- A directive that pushes the diagnostic state. -/
def isPush : Directive → Bool
  | Directive.clangDiag s => s == "push"
  | Directive.gccDiag s => s == "push"
  | Directive.mspragma s => s == "warning(push)"

/-- A directive that pops the diagnostic state. -/
def isPop : Directive → Bool
  | Directive.clangDiag s => s == "pop"
  | Directive.gccDiag s => s == "pop"
  | Directive.mspragma s => s == "warning(pop)"

/-- Number of push directives in an expansion. -/
def pushCount (l : List Directive) : Nat := (l.filter isPush).length

/-- Number of pop directives in an expansion. -/
def popCount (l : List Directive) : Nat := (l.filter isPop).length

/-- A directive that ignores the named warning flag, in either the Clang
or the GCC diagnostic pragma syntax. -/
def ignoresFlag (flag : String) : Directive → Bool
  | Directive.clangDiag s => s == "ignored " ++ DIAG_JOINSTR "-W" flag
  | Directive.gccDiag s => s == "ignored " ++ DIAG_JOINSTR "-W" flag
  | Directive.mspragma _ => false

/-- An expansion suppresses the named warning flag when some directive of
it ignores that flag. -/
def suppressesFlag (flag : String) (l : List Directive) : Bool :=
  l.any (ignoresFlag flag)

/-- A directive in the Clang diagnostic pragma syntax. -/
def isClangDirective : Directive → Bool
  | Directive.clangDiag _ => true
  | _ => false

/-- A directive in the GCC diagnostic pragma syntax. -/
def isGccDirective : Directive → Bool
  | Directive.gccDiag _ => true
  | _ => false

/-- A modern Clang build that, as Clang does, also defines the
GCC-compatibility identity macro. -/
def clang10 : Config :=
  { clang := true, gnuc := true, msc := false, apple := false,
    yybyacc := false, clangMajor := 10, clangMinor := 0,
    gnucMajor := 4, gnucMinor := 2 }

/-- A plain GCC 4.8 build, neither Clang nor Apple nor Microsoft. -/
def gcc48 : Config :=
  { clang := false, gnuc := true, msc := false, apple := false,
    yybyacc := false, clangMajor := 0, clangMinor := 0,
    gnucMajor := 4, gnucMinor := 8 }

/-- A Clang build older than 2.8, on which the header leaves DIAG_OFF and
DIAG_ON undefined and the empty fallback applies. -/
def clang27 : Config :=
  { clang := true, gnuc := true, msc := false, apple := false,
    yybyacc := false, clangMajor := 2, clangMinor := 7,
    gnucMajor := 4, gnucMinor := 2 }

/-- A Microsoft compiler build: only the Microsoft identity macro is
defined. -/
def msvc : Config :=
  { clang := false, gnuc := false, msc := true, apple := false,
    yybyacc := false, clangMajor := 0, clangMinor := 0,
    gnucMajor := 0, gnucMinor := 0 }

/-- An Apple build using the old Apple GCC 4.0, which is below the 4.8
gate of the header. -/
def appleGcc40 : Config :=
  { clang := false, gnuc := true, msc := false, apple := true,
    yybyacc := false, clangMajor := 0, clangMinor := 0,
    gnucMajor := 4, gnucMinor := 0 }

/-- A GCC 4.8 build with the Berkeley YACC selection flag defined. -/
def byaccGcc48 : Config :=
  { clang := false, gnuc := true, msc := false, apple := false,
    yybyacc := true, clangMajor := 0, clangMinor := 0,
    gnucMajor := 4, gnucMinor := 8 }

/-- A modern Clang build with the Berkeley YACC selection flag defined. -/
def byaccClang10 : Config :=
  { clang := true, gnuc := true, msc := false, apple := false,
    yybyacc := true, clangMajor := 10, clangMinor := 0,
    gnucMajor := 4, gnucMinor := 2 }

/-- An Apple build on modern Clang. -/
def appleClang10 : Config :=
  { clang := true, gnuc := true, msc := false, apple := true,
    yybyacc := false, clangMajor := 10, clangMinor := 0,
    gnucMajor := 4, gnucMinor := 2 }

/-- On a supported Clang configuration, DIAG_OFF expands to a push
followed by an ignore of the flag. -/
lemma diag_off_clang_supported (cfg : Config) (hc : cfg.clang = true)
    (hv : versionAtLeast cfg.clangMajor cfg.clangMinor 2 8 = true) (x : String) :
    DIAG_OFF cfg x =
      [Directive.clangDiag "push",
       Directive.clangDiag ("ignored " ++ DIAG_JOINSTR "-W" x)] := by
  simp [DIAG_OFF, WS_IS_AT_LEAST_CLANG_VERSION, hc, hv, DIAG_PRAGMA_clang]

/-- On a supported GCC-compatible non-Clang configuration, DIAG_OFF
expands to a push followed by an ignore of the flag. -/
lemma diag_off_gcc_supported (cfg : Config) (hc : cfg.clang = false)
    (hg : cfg.gnuc = true)
    (hv : versionAtLeast cfg.gnucMajor cfg.gnucMinor 4 8 = true) (x : String) :
    DIAG_OFF cfg x =
      [Directive.gccDiag "push",
       Directive.gccDiag ("ignored " ++ DIAG_JOINSTR "-W" x)] := by
  simp [DIAG_OFF, WS_IS_AT_LEAST_GNUC_VERSION, hc, hg, hv, DIAG_PRAGMA_gcc]

/-- On a supported Clang configuration, DIAG_ON expands to a single pop. -/
lemma diag_on_clang_supported (cfg : Config) (hc : cfg.clang = true)
    (hv : versionAtLeast cfg.clangMajor cfg.clangMinor 2 8 = true) (x : String) :
    DIAG_ON cfg x = [Directive.clangDiag "pop"] := by
  simp [DIAG_ON, WS_IS_AT_LEAST_CLANG_VERSION, hc, hv, DIAG_PRAGMA_clang]

/-- On a supported GCC-compatible non-Clang configuration, DIAG_ON
expands to a single pop. -/
lemma diag_on_gcc_supported (cfg : Config) (hc : cfg.clang = false)
    (hg : cfg.gnuc = true)
    (hv : versionAtLeast cfg.gnucMajor cfg.gnucMinor 4 8 = true) (x : String) :
    DIAG_ON cfg x = [Directive.gccDiag "pop"] := by
  simp [DIAG_ON, WS_IS_AT_LEAST_GNUC_VERSION, hc, hg, hv, DIAG_PRAGMA_gcc]

/-- On an unsupported configuration DIAG_OFF expands to nothing. -/
lemma diag_off_unsupported (cfg : Config) (x : String)
    (h : diagSupported cfg = false) : DIAG_OFF cfg x = [] := by
  obtain ⟨c, g, m, a, y, cM, cm, gM, gm⟩ := cfg
  simp [diagSupported, WS_IS_AT_LEAST_CLANG_VERSION,
    WS_IS_AT_LEAST_GNUC_VERSION] at h
  cases c <;> cases g <;>
    simp_all [DIAG_OFF, WS_IS_AT_LEAST_CLANG_VERSION, WS_IS_AT_LEAST_GNUC_VERSION]

/-- On an unsupported configuration DIAG_ON expands to nothing. -/
lemma diag_on_unsupported (cfg : Config) (x : String)
    (h : diagSupported cfg = false) : DIAG_ON cfg x = [] := by
  obtain ⟨c, g, m, a, y, cM, cm, gM, gm⟩ := cfg
  simp [diagSupported, WS_IS_AT_LEAST_CLANG_VERSION,
    WS_IS_AT_LEAST_GNUC_VERSION] at h
  cases c <;> cases g <;>
    simp_all [DIAG_ON, WS_IS_AT_LEAST_CLANG_VERSION, WS_IS_AT_LEAST_GNUC_VERSION]

/-- On a supported Clang configuration the Clang version gate holds. -/
lemma diagSupported_clangVersion (cfg : Config) (hc : cfg.clang = true)
    (hs : diagSupported cfg = true) :
    versionAtLeast cfg.clangMajor cfg.clangMinor 2 8 = true := by
  simp [diagSupported, WS_IS_AT_LEAST_CLANG_VERSION,
    WS_IS_AT_LEAST_GNUC_VERSION, hc] at hs
  exact hs

/-- On a supported non-Clang configuration the compiler is GCC-compatible
and the GCC version gate holds. -/
lemma diagSupported_gnucVersion (cfg : Config) (hc : cfg.clang = false)
    (hs : diagSupported cfg = true) :
    cfg.gnuc = true ∧ versionAtLeast cfg.gnucMajor cfg.gnucMinor 4 8 = true := by
  simp [diagSupported, WS_IS_AT_LEAST_CLANG_VERSION,
    WS_IS_AT_LEAST_GNUC_VERSION, hc] at hs
  exact hs

/-- Claim C1: every suppress/restore pair should emit an equal number of
push and pop directives on every compiler configuration.  The code
violates this: on a modern Clang configuration DIAG_ON_FLEX itself begins
with DIAG_OFF(unreachable-code), a push plus ignore, so the
DIAG_OFF_FLEX / DIAG_ON_FLEX pair emits four pushes but only two pops and
leaks two suppression scopes. -/
theorem flex_pair_unbalanced_on_clang :
    pushCount (DIAG_OFF_FLEX clang10 ++ DIAG_ON_FLEX clang10) = 4 ∧
      popCount (DIAG_OFF_FLEX clang10 ++ DIAG_ON_FLEX clang10) = 2 ∧
      pushCount (DIAG_OFF_FLEX clang10 ++ DIAG_ON_FLEX clang10) ≠
        popCount (DIAG_OFF_FLEX clang10 ++ DIAG_ON_FLEX clang10) := by
  decide

/-- Claim C3: for every warning flag, DIAG_OFF on Clang at least 2.8 or
on a GCC-compatible non-Clang compiler at least 4.8 expands to a push
directive followed by a directive ignoring the flag, and DIAG_ON to a
single pop directive; on Clang below 2.8, or GCC-compatible non-Clang
below 4.8, both expand to nothing. -/
theorem diag_off_on_version_gate (cfg : Config) (x : String) :
    (cfg.clang = true → WS_IS_AT_LEAST_CLANG_VERSION cfg 2 8 = true →
      DIAG_OFF cfg x =
        [Directive.clangDiag "push",
         Directive.clangDiag ("ignored " ++ DIAG_JOINSTR "-W" x)] ∧
      DIAG_ON cfg x = [Directive.clangDiag "pop"]) ∧
    (cfg.clang = false → WS_IS_AT_LEAST_GNUC_VERSION cfg 4 8 = true →
      DIAG_OFF cfg x =
        [Directive.gccDiag "push",
         Directive.gccDiag ("ignored " ++ DIAG_JOINSTR "-W" x)] ∧
      DIAG_ON cfg x = [Directive.gccDiag "pop"]) ∧
    (cfg.clang = true → WS_IS_AT_LEAST_CLANG_VERSION cfg 2 8 = false →
      DIAG_OFF cfg x = [] ∧ DIAG_ON cfg x = []) ∧
    (cfg.clang = false → cfg.gnuc = true →
      WS_IS_AT_LEAST_GNUC_VERSION cfg 4 8 = false →
      DIAG_OFF cfg x = [] ∧ DIAG_ON cfg x = []) := by
  refine ⟨fun hc hv => ?_, fun hc hv => ?_, fun hc hv => ?_, fun hc hg hv => ?_⟩
  · simp [DIAG_OFF, DIAG_ON, hc, hv, DIAG_PRAGMA_clang]
  · have hg : cfg.gnuc = true := by
      simp [WS_IS_AT_LEAST_GNUC_VERSION, Bool.and_eq_true] at hv
      exact hv.1
    simp [DIAG_OFF, DIAG_ON, hc, hg, hv, DIAG_PRAGMA_gcc]
  · simp [DIAG_OFF, DIAG_ON, hc, hv]
  · simp [DIAG_OFF, DIAG_ON, hc, hg, hv]

/-- Witness for claim C3 at four concrete configurations, one per case of
the statement. -/
theorem diag_off_on_version_gate_witness :
    (DIAG_OFF clang10 "foo" =
        [Directive.clangDiag "push",
         Directive.clangDiag ("ignored " ++ DIAG_JOINSTR "-W" "foo")] ∧
      DIAG_ON clang10 "foo" = [Directive.clangDiag "pop"]) ∧
    (DIAG_OFF gcc48 "foo" =
        [Directive.gccDiag "push",
         Directive.gccDiag ("ignored " ++ DIAG_JOINSTR "-W" "foo")] ∧
      DIAG_ON gcc48 "foo" = [Directive.gccDiag "pop"]) ∧
    (DIAG_OFF clang27 "foo" = [] ∧ DIAG_ON clang27 "foo" = []) ∧
    (DIAG_OFF appleGcc40 "foo" = [] ∧ DIAG_ON appleGcc40 "foo" = []) :=
  ⟨(diag_off_on_version_gate clang10 "foo").1 rfl (by decide),
   (diag_off_on_version_gate gcc48 "foo").2.1 rfl (by decide),
   (diag_off_on_version_gate clang27 "foo").2.2.1 rfl (by decide),
   (diag_off_on_version_gate appleGcc40 "foo").2.2.2 rfl rfl (by decide)⟩

/-- Claim C4: on every configuration on which neither the Clang branch
nor the GCC branch defined the macros, DIAG_OFF and DIAG_ON both expand
to nothing, for every flag. -/
theorem diag_off_on_unsupported_noop (cfg : Config) (x : String)
    (h : diagSupported cfg = false) :
    DIAG_OFF cfg x = [] ∧ DIAG_ON cfg x = [] :=
  ⟨diag_off_unsupported cfg x h, diag_on_unsupported cfg x h⟩

/-- Witness for claim C4 at the Microsoft configuration. -/
theorem diag_off_on_unsupported_noop_witness :
    diagSupported msvc = false ∧
      (DIAG_OFF msvc "foo" = [] ∧ DIAG_ON msvc "foo" = []) :=
  ⟨by decide, diag_off_on_unsupported_noop msvc "foo" (by decide)⟩

/-- Claim C5: when both the Clang and the GCC-compatibility identity
macros are defined, the Clang branch wins: every directive DIAG_OFF or
DIAG_ON emits is in the Clang diagnostic pragma syntax and none is in the
GCC syntax. -/
theorem clang_priority_over_gcc (cfg : Config) (hc : cfg.clang = true)
    (hg : cfg.gnuc = true) (x : String) :
    ∀ d ∈ DIAG_OFF cfg x ++ DIAG_ON cfg x,
      isClangDirective d = true ∧ isGccDirective d = false := by
  intro d hd
  cases hv : WS_IS_AT_LEAST_CLANG_VERSION cfg 2 8 <;>
    simp [DIAG_OFF, DIAG_ON, hc, hv, DIAG_PRAGMA_clang] at hd
  rcases hd with h | h | h <;> subst h <;>
    simp [isClangDirective, isGccDirective]

/-- Witness for claim C5 at a Clang configuration that also defines the
GCC-compatibility macro. -/
theorem clang_priority_over_gcc_witness :
    Directive.clangDiag "push" ∈ DIAG_OFF clang10 "foo" ++ DIAG_ON clang10 "foo" ∧
      isClangDirective (Directive.clangDiag "push") = true ∧
      isGccDirective (Directive.clangDiag "push") = false :=
  ⟨by decide,
   clang_priority_over_gcc clang10 rfl rfl "foo"
     (Directive.clangDiag "push") (by decide)⟩

/-- Claim C9: DIAG_ON ignores its argument, so any two flags give the
same expansion, that expansion is nothing but pop directives and has at
most one of them, and DIAG_ON_BYACC restores correctly even though the
source passes it the misspelled flag SHADOW. -/
theorem diag_on_ignores_argument (cfg : Config) (x y : String) :
    DIAG_ON cfg x = DIAG_ON cfg y ∧
      popCount (DIAG_ON cfg x) = (DIAG_ON cfg x).length ∧
      (DIAG_ON cfg x).length ≤ 1 ∧
      (cfg.msc = false → cfg.yybyacc = true →
        DIAG_ON_BYACC cfg = DIAG_ON cfg "shadow") := by
  refine ⟨rfl, ?_, ?_, fun hm hy => ?_⟩
  · cases hc : cfg.clang <;>
      cases hv : WS_IS_AT_LEAST_CLANG_VERSION cfg 2 8 <;>
      cases hg : cfg.gnuc <;>
      cases hw : WS_IS_AT_LEAST_GNUC_VERSION cfg 4 8 <;>
      simp [DIAG_ON, hc, hv, hg, hw, DIAG_PRAGMA_clang, DIAG_PRAGMA_gcc,
        popCount, isPop]
  · cases hc : cfg.clang <;>
      cases hv : WS_IS_AT_LEAST_CLANG_VERSION cfg 2 8 <;>
      cases hg : cfg.gnuc <;>
      cases hw : WS_IS_AT_LEAST_GNUC_VERSION cfg 4 8 <;>
      simp [DIAG_ON, hc, hv, hg, hw, DIAG_PRAGMA_clang, DIAG_PRAGMA_gcc]
  · simp only [DIAG_ON_BYACC, hm, hy]
    rfl

/-- Witness for claim C9 at a Berkeley YACC Clang configuration. -/
theorem diag_on_ignores_argument_witness :
    DIAG_ON byaccClang10 "unused-a" = DIAG_ON byaccClang10 "unused-b" ∧
      DIAG_ON_BYACC byaccClang10 = DIAG_ON byaccClang10 "shadow" :=
  ⟨(diag_on_ignores_argument byaccClang10 "unused-a" "unused-b").1,
   (diag_on_ignores_argument byaccClang10 "unused-a" "unused-b").2.2.2 rfl rfl⟩

/-- Claim C10: on a Microsoft compiler that is neither Clang nor
GCC-compatible, the per-flag macros and every other derived macro expand
to nothing, and only the fixed DIAG_OFF_FLEX / DIAG_ON_FLEX bundle emits
the Microsoft push, numeric disable and pop pragmas. -/
theorem msvc_only_flex_emits (cfg : Config) (hm : cfg.msc = true)
    (hc : cfg.clang = false) (hg : cfg.gnuc = false) (x : String) :
    DIAG_OFF cfg x = [] ∧ DIAG_ON cfg x = [] ∧
      DIAG_OFF_CLANG cfg x = [] ∧ DIAG_ON_CLANG cfg x = [] ∧
      DIAG_OFF_BYACC cfg = [] ∧ DIAG_ON_BYACC cfg = [] ∧
      USES_APPLE_DEPRECATED_API cfg = [] ∧ USES_APPLE_RST cfg = [] ∧
      DIAG_OFF_FLEX cfg =
        [Directive.mspragma "warning(push)",
         Directive.mspragma "warning(disable:4018)",
         Directive.mspragma "warning(disable:4244)",
         Directive.mspragma "warning(disable:4267)",
         Directive.mspragma "warning(disable:6011)",
         Directive.mspragma "warning(disable:6308)",
         Directive.mspragma "warning(disable:6386)",
         Directive.mspragma "warning(disable:6387)",
         Directive.mspragma "warning(disable:28182)"] ∧
      DIAG_ON_FLEX cfg = [Directive.mspragma "warning(pop)"] := by
  simp [DIAG_OFF, DIAG_ON, DIAG_OFF_CLANG, DIAG_ON_CLANG,
    DIAG_OFF_BYACC, DIAG_ON_BYACC, USES_APPLE_DEPRECATED_API,
    USES_APPLE_RST, DIAG_OFF_FLEX, DIAG_ON_FLEX, hm, hc, hg]

/-- Witness for claim C10 at the Microsoft configuration. -/
theorem msvc_only_flex_emits_witness :
    DIAG_OFF msvc "foo" = [] ∧ DIAG_ON msvc "foo" = [] ∧
      DIAG_OFF_CLANG msvc "foo" = [] ∧ DIAG_ON_CLANG msvc "foo" = [] ∧
      DIAG_OFF_BYACC msvc = [] ∧ DIAG_ON_BYACC msvc = [] ∧
      USES_APPLE_DEPRECATED_API msvc = [] ∧ USES_APPLE_RST msvc = [] ∧
      DIAG_OFF_FLEX msvc =
        [Directive.mspragma "warning(push)",
         Directive.mspragma "warning(disable:4018)",
         Directive.mspragma "warning(disable:4244)",
         Directive.mspragma "warning(disable:4267)",
         Directive.mspragma "warning(disable:6011)",
         Directive.mspragma "warning(disable:6308)",
         Directive.mspragma "warning(disable:6386)",
         Directive.mspragma "warning(disable:6387)",
         Directive.mspragma "warning(disable:28182)"] ∧
      DIAG_ON_FLEX msvc = [Directive.mspragma "warning(pop)"] :=
  msvc_only_flex_emits msvc rfl rfl rfl "foo"

/-- Claim C7: the expansion of DIAG_OFF_BYACC suppresses the shadow
warning only when the Berkeley YACC selection flag is defined, and when
that flag is absent DIAG_OFF_BYACC and DIAG_ON_BYACC both expand to
nothing. -/
theorem byacc_shadow_gated (cfg : Config) :
    (suppressesFlag "shadow" (DIAG_OFF_BYACC cfg) = true →
      cfg.yybyacc = true) ∧
    (cfg.yybyacc = false →
      DIAG_OFF_BYACC cfg = [] ∧ DIAG_ON_BYACC cfg = []) := by
  constructor
  · intro hsupp
    cases hy : cfg.yybyacc with
    | true => rfl
    | false =>
      simp [DIAG_OFF_BYACC, hy, suppressesFlag] at hsupp
  · intro hy
    simp [DIAG_OFF_BYACC, DIAG_ON_BYACC, hy]

/-- Witness for claim C7: the suppression really occurs under the flag on
a supported compiler, and both macros are empty without the flag. -/
theorem byacc_shadow_gated_witness :
    byaccGcc48.yybyacc = true ∧
      (DIAG_OFF_BYACC gcc48 = [] ∧ DIAG_ON_BYACC gcc48 = []) :=
  ⟨(byacc_shadow_gated byaccGcc48).1 (by decide),
   (byacc_shadow_gated gcc48).2 rfl⟩

/-- Counterexample to claim C2 as stated: plain GCC 4.8 is a
configuration on which suppression is supported, yet DIAG_OFF_FLEX
suppresses only sign-compare, not shorten-64-to-32 nor
unreachable-code. -/
theorem flex_bundle_three_flags_counterexample :
    diagSupported gcc48 = true ∧
      suppressesFlag "sign-compare" (DIAG_OFF_FLEX gcc48) = true ∧
      suppressesFlag "shorten-64-to-32" (DIAG_OFF_FLEX gcc48) = false ∧
      suppressesFlag "unreachable-code" (DIAG_OFF_FLEX gcc48) = false := by
  decide

/-- Claim C2, amended: on every non-Microsoft configuration on which
suppression is supported and which defines the Clang or the Apple
identity macro, DIAG_OFF_FLEX suppresses sign-compare, shorten-64-to-32
and unreachable-code. -/
theorem flex_bundle_three_flags (cfg : Config) (hm : cfg.msc = false)
    (hs : diagSupported cfg = true) (hca : (cfg.clang || cfg.apple) = true) :
    suppressesFlag "sign-compare" (DIAG_OFF_FLEX cfg) = true ∧
      suppressesFlag "shorten-64-to-32" (DIAG_OFF_FLEX cfg) = true ∧
      suppressesFlag "unreachable-code" (DIAG_OFF_FLEX cfg) = true := by
  cases hc : cfg.clang with
  | true =>
    have hv := diagSupported_clangVersion cfg hc hs
    simp only [DIAG_OFF_FLEX, hm, hc, Bool.true_or, Bool.false_eq_true,
      if_false, if_true]
    rw [diag_off_clang_supported cfg hc hv "sign-compare",
      diag_off_clang_supported cfg hc hv "shorten-64-to-32",
      diag_off_clang_supported cfg hc hv "unreachable-code"]
    decide
  | false =>
    have ha : cfg.apple = true := by simpa [hc] using hca
    have hv := diagSupported_gnucVersion cfg hc hs
    simp only [DIAG_OFF_FLEX, hm, hc, ha, Bool.or_true, Bool.false_eq_true,
      if_false, if_true]
    rw [diag_off_gcc_supported cfg hc hv.1 hv.2 "sign-compare",
      diag_off_gcc_supported cfg hc hv.1 hv.2 "shorten-64-to-32",
      diag_off_gcc_supported cfg hc hv.1 hv.2 "unreachable-code"]
    decide

/-- Witness for the amended claim C2 at a modern Clang configuration. -/
theorem flex_bundle_three_flags_witness :
    suppressesFlag "sign-compare" (DIAG_OFF_FLEX clang10) = true ∧
      suppressesFlag "shorten-64-to-32" (DIAG_OFF_FLEX clang10) = true ∧
      suppressesFlag "unreachable-code" (DIAG_OFF_FLEX clang10) = true :=
  flex_bundle_three_flags clang10 rfl (by decide) rfl

/-- Counterexample to claim C6 as stated: Clang 2.7 is a non-Microsoft
configuration with the Clang identity macro defined, yet the expansion of
DIAG_OFF_FLEX contains no shorten-64-to-32 suppression, because the
per-flag macros fall back to empty below Clang 2.8. -/
theorem flex_shorten_iff_clang_or_apple_counterexample :
    clang27.msc = false ∧ (clang27.clang || clang27.apple) = true ∧
      suppressesFlag "shorten-64-to-32" (DIAG_OFF_FLEX clang27) = false ∧
      DIAG_OFF_FLEX clang27 = [] := by
  decide

/-- Claim C6, amended: on every non-Microsoft configuration on which
suppression is supported, the expansion of DIAG_OFF_FLEX includes the
shorten-64-to-32 suppression exactly when the Clang or the Apple identity
macro is defined. -/
theorem flex_shorten_iff_clang_or_apple (cfg : Config) (hm : cfg.msc = false)
    (hs : diagSupported cfg = true) :
    suppressesFlag "shorten-64-to-32" (DIAG_OFF_FLEX cfg) =
      (cfg.clang || cfg.apple) := by
  cases hc : cfg.clang with
  | true =>
    have hv := diagSupported_clangVersion cfg hc hs
    simp only [DIAG_OFF_FLEX, hm, hc, Bool.true_or, Bool.false_eq_true,
      if_false, if_true]
    rw [diag_off_clang_supported cfg hc hv "sign-compare",
      diag_off_clang_supported cfg hc hv "shorten-64-to-32",
      diag_off_clang_supported cfg hc hv "unreachable-code"]
    decide
  | false =>
    have hv := diagSupported_gnucVersion cfg hc hs
    cases ha : cfg.apple with
    | true =>
      simp only [DIAG_OFF_FLEX, hm, hc, ha, Bool.or_true, Bool.false_eq_true,
        if_false, if_true]
      rw [diag_off_gcc_supported cfg hc hv.1 hv.2 "sign-compare",
        diag_off_gcc_supported cfg hc hv.1 hv.2 "shorten-64-to-32",
        diag_off_gcc_supported cfg hc hv.1 hv.2 "unreachable-code"]
      decide
    | false =>
      simp only [DIAG_OFF_FLEX, hm, hc, ha, Bool.or_self, Bool.false_eq_true,
        if_false]
      rw [diag_off_gcc_supported cfg hc hv.1 hv.2 "sign-compare"]
      decide

/-- Witness for the amended claim C6 at a plain GCC configuration, where
the suppression must be absent. -/
theorem flex_shorten_iff_clang_or_apple_witness :
    suppressesFlag "shorten-64-to-32" (DIAG_OFF_FLEX gcc48) =
      (gcc48.clang || gcc48.apple) :=
  flex_shorten_iff_clang_or_apple gcc48 rfl (by decide)

/-- Counterexample to claim C8 as stated: on an Apple build using the old
Apple GCC 4.0, the Apple identity macro is defined yet
USES_APPLE_DEPRECATED_API expands to nothing, because the per-flag macros
fall back to empty below GCC 4.8. -/
theorem apple_deprecated_gate_counterexample :
    appleGcc40.apple = true ∧
      USES_APPLE_DEPRECATED_API appleGcc40 = [] ∧
      suppressesFlag "deprecated-declarations"
        (USES_APPLE_DEPRECATED_API appleGcc40) = false := by
  decide

/-- Claim C8, amended: USES_APPLE_DEPRECATED_API expands to a suppression
of deprecated-declarations, and USES_APPLE_RST to a matching single pop,
exactly when the Apple identity macro is defined and suppression is
supported; on every other configuration both expand to nothing. -/
theorem apple_deprecated_gate (cfg : Config) :
    (suppressesFlag "deprecated-declarations" (USES_APPLE_DEPRECATED_API cfg) =
        (cfg.apple && diagSupported cfg)) ∧
      ((cfg.apple && diagSupported cfg) = true →
        popCount (USES_APPLE_RST cfg) = 1) ∧
      ((cfg.apple && diagSupported cfg) = false →
        USES_APPLE_DEPRECATED_API cfg = [] ∧ USES_APPLE_RST cfg = []) := by
  refine ⟨?_, fun h => ?_, fun h => ?_⟩
  · cases ha : cfg.apple with
    | false => simp [USES_APPLE_DEPRECATED_API, ha, suppressesFlag]
    | true =>
      cases hs : diagSupported cfg with
      | false =>
        simp [USES_APPLE_DEPRECATED_API, ha, hs,
          diag_off_unsupported cfg _ hs, suppressesFlag]
      | true =>
        cases hc : cfg.clang with
        | true =>
          have hv := diagSupported_clangVersion cfg hc hs
          simp only [USES_APPLE_DEPRECATED_API, ha, hs, Bool.and_true, if_true,
            diag_off_clang_supported cfg hc hv "deprecated-declarations"]
          decide
        | false =>
          have hv := diagSupported_gnucVersion cfg hc hs
          simp only [USES_APPLE_DEPRECATED_API, ha, hs, Bool.and_true, if_true,
            diag_off_gcc_supported cfg hc hv.1 hv.2 "deprecated-declarations"]
          decide
  · have ha : cfg.apple = true := (Bool.and_eq_true _ _).mp h |>.1
    have hs : diagSupported cfg = true := (Bool.and_eq_true _ _).mp h |>.2
    cases hc : cfg.clang with
    | true =>
      have hv := diagSupported_clangVersion cfg hc hs
      simp only [USES_APPLE_RST, ha, if_true,
        diag_on_clang_supported cfg hc hv "deprecated-declarations"]
      decide
    | false =>
      have hv := diagSupported_gnucVersion cfg hc hs
      simp only [USES_APPLE_RST, ha, if_true,
        diag_on_gcc_supported cfg hc hv.1 hv.2 "deprecated-declarations"]
      decide
  · cases ha : cfg.apple with
    | false => simp [USES_APPLE_DEPRECATED_API, USES_APPLE_RST, ha]
    | true =>
      have hs : diagSupported cfg = false := by simpa [ha] using h
      simp [USES_APPLE_DEPRECATED_API, USES_APPLE_RST, ha,
        diag_off_unsupported cfg _ hs, diag_on_unsupported cfg _ hs]

/-- Witness for the amended claim C8 at an Apple Clang configuration and
at a non-Apple configuration. -/
theorem apple_deprecated_gate_witness :
    popCount (USES_APPLE_RST appleClang10) = 1 ∧
      (USES_APPLE_DEPRECATED_API gcc48 = [] ∧ USES_APPLE_RST gcc48 = []) :=
  ⟨(apple_deprecated_gate appleClang10).2.1 (by decide),
   (apple_deprecated_gate gcc48).2.2 (by decide)⟩
